import Mathlib

/-!
Verification of the ip-command wrapper (blanksteer/ip-command) against its
natural-language specification. The definitions below are a shallow embedding
of the Rust source: src/lib.rs (the IpCommand client, its command runner and
the ConsoleStream line stream), src/src/command/link.rs and
src/src/command/address.rs (the custom Serialize implementations for
enumerated multi-token configuration values). Machine integers are modelled
as Nat, raw subprocess output as lists of byte values, fallible paths as
Except / explicit outcome types, and a Rust panic (unwrap / unimplemented)
as an explicit `panicked` outcome distinct from every typed error.
-/

namespace IpCmd

/-- Raw bytes captured from a subprocess pipe (each entry a byte value). -/
abbrev Bytes := List Nat

/-- The error enum of src/lib.rs (`enum Error`, lines 39-61), with the
payloads the claims need: CommandFailedError carries the captured stdout and
stderr text (as UTF-8 bytes, which is how Rust stores a String). -/
inductive Error where
  | CommandError
  | CommandFailedError (stdout stderr : Bytes)
  | CommandNotFoundError
  | CommandOptionsSerializationError
  | CommandTimeoutError
  | JsonDeserializationError
  | SpawnError
deriving DecidableEq

/-- Whether a byte is a UTF-8 continuation byte (10xxxxxx). -/
def isCont (b : Nat) : Bool := 0x80 ≤ b && b ≤ 0xBF

/-- Standard UTF-8 validation of a byte sequence, exactly the check Rust's
`String::from_utf8` performs: ASCII, 2-byte C2..DF, 3-byte with the E0/ED
range restrictions (no overlongs, no surrogates), 4-byte with the F0/F4
range restrictions (no overlongs, nothing above U+10FFFF). -/
def validUtf8 : Bytes → Bool
  | [] => true
  | b :: r =>
    if b ≤ 0x7F then validUtf8 r
    else if 0xC2 ≤ b && b ≤ 0xDF then
      match r with
      | c1 :: r1 => isCont c1 && validUtf8 r1
      | [] => false
    else if b == 0xE0 then
      match r with
      | c1 :: c2 :: r2 => (0xA0 ≤ c1 && c1 ≤ 0xBF) && isCont c2 && validUtf8 r2
      | _ => false
    else if (0xE1 ≤ b && b ≤ 0xEC) || b == 0xEE || b == 0xEF then
      match r with
      | c1 :: c2 :: r2 => isCont c1 && isCont c2 && validUtf8 r2
      | _ => false
    else if b == 0xED then
      match r with
      | c1 :: c2 :: r2 => (0x80 ≤ c1 && c1 ≤ 0x9F) && isCont c2 && validUtf8 r2
      | _ => false
    else if b == 0xF0 then
      match r with
      | c1 :: c2 :: c3 :: r3 =>
        (0x90 ≤ c1 && c1 ≤ 0xBF) && isCont c2 && isCont c3 && validUtf8 r3
      | _ => false
    else if 0xF1 ≤ b && b ≤ 0xF3 then
      match r with
      | c1 :: c2 :: c3 :: r3 => isCont c1 && isCont c2 && isCont c3 && validUtf8 r3
      | _ => false
    else if b == 0xF4 then
      match r with
      | c1 :: c2 :: c3 :: r3 =>
        (0x80 ≤ c1 && c1 ≤ 0x8F) && isCont c2 && isCont c3 && validUtf8 r3
      | _ => false
    else false

/-- Rust's `String::from_utf8`: a Rust String is its UTF-8 bytes, so a
successful conversion returns the same bytes; invalid input is an error
(which the source then `unwrap`s). -/
def from_utf8 (bs : Bytes) : Option Bytes :=
  if validUtf8 bs then some bs else none

/-- What the host OS / runtime race in lines 193-204 of src/lib.rs resolved
to for one invocation: the spawn failed, the timeout elapsed first, waiting
produced an I/O error, or the child exited with a status code and raw
captured pipe contents. -/
inductive ProcessOutcome where
  | spawnFailed
  | timedOut
  | waitError
  | exited (code : Nat) (stdout stderr : Bytes)

/-- Result of one `IpCommand::command` call: a returned String, a typed
`Error`, or a Rust panic (the `unwrap()` calls on UTF-8 conversion). -/
inductive CommandOutcome where
  | ok (text : Bytes)
  | err (e : Error)
  | panicked
deriving DecidableEq

/-- Shallow embedding of the result handling of `IpCommand::command`
(src/lib.rs lines 199-223): spawn failure is SpawnError; an elapsed timeout
is CommandTimeoutError; an I/O error from waiting is CommandError; otherwise
stdout then stderr are converted with `String::from_utf8(..).unwrap()` (a
panic on invalid UTF-8), a nonzero status yields CommandFailedError carrying
both captured texts, and a zero status returns stdout, or stdout followed by
stderr when combined output was requested. -/
def commandResult (combined_output : Bool) (outcome : ProcessOutcome) :
    CommandOutcome :=
  match outcome with
  | .spawnFailed => .err .SpawnError
  | .timedOut => .err .CommandTimeoutError
  | .waitError => .err .CommandError
  | .exited code sout serr =>
    match from_utf8 sout with
    | none => .panicked
    | some stdout =>
      match from_utf8 serr with
      | none => .panicked
      | some stderr =>
        if code == 0 then
          if combined_output then .ok (stdout ++ stderr) else .ok stdout
        else .err (.CommandFailedError stdout stderr)

/-- An executable search path: each entry is a directory (its path string)
together with the names of the executable files it contains. This stands for
the PATH environment variable plus the file system that
`IpCommand::path` (src/lib.rs lines 259-272) consults. -/
abbrev SearchPath := List (String × List String)

/-- Shallow embedding of `IpCommand::path` (src/lib.rs lines 259-272):
split the search path into directories, keep each directory whose joined
path is a file, and take the first match. -/
def path (name : String) (searchPath : SearchPath) : Option String :=
  (searchPath.filterMap fun dir =>
    if name ∈ dir.2 then some (dir.1 ++ "/" ++ name) else none).head?

/-- The client state of `struct IpCommand` (src/lib.rs lines 63-68): the
resolved binary path, the timeout in milliseconds and the optional network
namespace. The Rust field `namespace` is a Lean keyword, hence the trailing
underscore. -/
structure IpCommand where
  command : String
  timeout : Nat
  namespace_ : Option String
deriving DecidableEq

/-- Shallow embedding of `IpCommand::new` (src/lib.rs lines 72-78): resolve
"ip" on the search path, fail with CommandNotFoundError when absent, and
otherwise construct the client with a 5000 ms timeout and no namespace. -/
def IpCommand.new (searchPath : SearchPath) : Except Error IpCommand :=
  match path "ip" searchPath with
  | some p => .ok { command := p, timeout := 5000, namespace_ := none }
  | none => .error .CommandNotFoundError

/-- Shallow embedding of `IpCommand::with_namespace` (src/lib.rs lines
86-90): clone the client and set the namespace. -/
def IpCommand.with_namespace (self : IpCommand) (ns : String) : IpCommand :=
  { self with namespace_ := some ns }

/-- Shallow embedding of `IpCommand::concat_args` (src/lib.rs lines
249-257): start from ["-json"], push "-netns" and the namespace name when a
namespace is configured, then append the caller's arguments. -/
def IpCommand.concat_args (self : IpCommand) (args : List String) :
    List String :=
  (["-json"] ++
    (match self.namespace_ with
     | some ns => ["-netns", ns]
     | none => [])) ++ args

/-- What `tokio::process::Command` is handed before `spawn()`: the program
path, the argument vector, and the fact that stdin is null while stdout and
stderr are piped (src/lib.rs lines 193-198 and 239-244). -/
structure SpawnRequest where
  program : String
  args : List String
  stdinNull : Bool
deriving DecidableEq

/-- The spawn request `IpCommand::command` builds (src/lib.rs lines
192-198): the resolved ip binary is run on `concat_args` of the caller's
arguments, with stdin null. -/
def IpCommand.commandSpawn (self : IpCommand) (args : List String) :
    SpawnRequest :=
  { program := self.command, args := self.concat_args args, stdinNull := true }

/-- Shallow embedding of the spawn half of
`IpCommand::command_with_streaming_output` (src/lib.rs lines 226-247): the
stdbuf tool is resolved on the search path at this call (CommandNotFoundError
when absent) and run on unbuffering flags, the ip binary path, and
`concat_args` of the caller's arguments. -/
def IpCommand.command_with_streaming_output_spawn (self : IpCommand)
    (searchPath : SearchPath) (args : List String) :
    Except Error SpawnRequest :=
  let combined_args :=
    ["-i0", "-o0", "-e0", self.command] ++ self.concat_args args
  match path "stdbuf" searchPath with
  | some stdbuf =>
    .ok { program := stdbuf, args := combined_args, stdinNull := true }
  | none => .error .CommandNotFoundError

/-- Outcome of one custom `Serialize` implementation: the fixed token list
it emits through `serialize_seq` / `serialize_element`, a typed
serialization error (surfaced by the serializer as
CommandOptionsSerializationError), or a Rust panic (`unimplemented!`). -/
inductive SerializeOutcome where
  | tokens (ts : List String)
  | serializationError
  | panicked
deriving DecidableEq

/-- Modelled from the spec: the ConfigurationSerializer (the
serde_command_opts crate driving `Serializer::new(..).into_args`) is not
among the repository's staged source files, only its callers and the custom
Serialize implementations are. Per the spec, a field whose declared encoding
is incomplete for the runtime variant encountered — the sentinel "None"
variant a schema forbids — fails with a SerializationError, surfaced rather
than silently dropped; `serialize_none` invoked for such a sentinel variant
therefore yields the typed serialization error. -/
def serialize_none : SerializeOutcome := .serializationError

/-- The `LinkDeviceOrGroup` enum of src/src/command/link.rs lines 59-64. -/
inductive LinkDeviceOrGroup where
  | Device (device : String)
  | DeviceGroup (group : Nat)
  | None
deriving DecidableEq

/-- Shallow embedding of `impl Serialize for LinkDeviceOrGroup`
(src/src/command/link.rs lines 72-93): Device emits the two tokens "dev"
then the device name, DeviceGroup emits "group" then the group number in
decimal, and the sentinel None variant hits `unimplemented!()` — a panic. -/
def LinkDeviceOrGroup.serialize : LinkDeviceOrGroup → SerializeOutcome
  | .Device device => .tokens ["dev", device]
  | .DeviceGroup group => .tokens ["group", toString group]
  | .None => .panicked

/-- The `AddressAddConfigurationFlag` enum of src/src/command/address.rs
lines 25-38. -/
inductive AddressAddConfigurationFlag where
  | None
  | HomeAddress
  | KernelManagedTemporaryAddress
  | NoDuplicateAddressDetection
  | NoPrefixRoute
  | JoinMulticastGroups
deriving DecidableEq

/-- The `ToString` implementation of src/src/command/address.rs lines
46-57: a flag keyword for each real variant; the sentinel None variant hits
`unimplemented!()`, modelled as `none`. -/
def AddressAddConfigurationFlag.to_string? :
    AddressAddConfigurationFlag → Option String
  | .HomeAddress => some "home"
  | .KernelManagedTemporaryAddress => some "mngtmpaddr"
  | .NoDuplicateAddressDetection => some "nodad"
  | .NoPrefixRoute => some "noprefixroute"
  | .JoinMulticastGroups => some "autojoin"
  | .None => none

/-- Shallow embedding of `impl Serialize for AddressAddConfigurationFlag`
(src/src/command/address.rs lines 59-72): the sentinel None variant calls
`serializer.serialize_none()` (handled by the spec-modelled serializer);
every other variant emits a one-element sequence holding its keyword. -/
def AddressAddConfigurationFlag.serialize (f : AddressAddConfigurationFlag) :
    SerializeOutcome :=
  match f with
  | .None => serialize_none
  | _ =>
    match f.to_string? with
    | some s => .tokens [s]
    | none => .panicked

/-- The `ExpressDataPathVariant` enum of src/src/command/link.rs lines
157-167. -/
inductive ExpressDataPathVariant where
  | Default
  | Generic
  | Driver
  | Offload
deriving DecidableEq

/-- The `ToString` implementation of src/src/command/link.rs lines
175-184. -/
def ExpressDataPathVariant.to_string : ExpressDataPathVariant → String
  | .Default => "xdp"
  | .Generic => "xdpgeneric"
  | .Driver => "xdpdrv"
  | .Offload => "xdpoffload"

/-- The `ExpressDataPathConfiguration` enum of src/src/command/link.rs
lines 186-200. -/
inductive ExpressDataPathConfiguration where
  | Off
  | Pinned (variant : ExpressDataPathVariant) (path : String) (verbose : Bool)
  | Object (variant : ExpressDataPathVariant) (path : String)
      (section_name : Option String) (verbose : Bool)
deriving DecidableEq

/-- The element count each arm of `impl Serialize for
ExpressDataPathConfiguration` (src/src/command/link.rs lines 208-262)
declares when it begins its `serialize_seq`: for Object the source computes
6 when verbose with a section name, 4 when verbose without one, and 3
otherwise; for Pinned 4 when verbose else 3; for Off 2. -/
def ExpressDataPathConfiguration.declaredElements :
    ExpressDataPathConfiguration → Nat
  | .Object _ _ section_name verbose =>
    if verbose && section_name.isSome then 6 else if verbose then 4 else 3
  | .Pinned _ _ verbose => if verbose then 4 else 3
  | .Off => 2

/-- The tokens each arm of `impl Serialize for ExpressDataPathConfiguration`
(src/src/command/link.rs lines 208-262) actually serializes, in
`serialize_element` order: Object emits the variant keyword, "object", the
path, then "section" and the section name when present, then "verbose" when
verbose; Pinned emits the variant keyword, "pinned", the path, then
"verbose" when verbose; Off emits "xdp" then "off". -/
def ExpressDataPathConfiguration.serializedTokens :
    ExpressDataPathConfiguration → List String
  | .Object variant path section_name verbose =>
    [variant.to_string, "object", path] ++
      (match section_name with
       | some s => ["section", s]
       | none => []) ++
      (if verbose then ["verbose"] else [])
  | .Pinned variant path verbose =>
    [variant.to_string, "pinned", path] ++
      (if verbose then ["verbose"] else [])
  | .Off => ["xdp", "off"]

/-- Modelled from the spec: the boolean-rendering mode selector
(serde_command_opts' `BooleanType`, whose crate is not among the staged
source files; the callers pass `BooleanType::OnOff`). The spec gives exactly
two modes: "state-word" (flag name followed by a literal on/off token) and
"presence" (flag name alone when true, nothing when false). -/
inductive BooleanType where
  | OnOff
  | Presence
deriving DecidableEq

/-- Modelled from the spec: how the ConfigurationSerializer (not among the
staged source files) renders one present boolean field under the chosen
mode — state-word mode emits the field's flag name followed by "on" or
"off"; presence mode emits the flag name alone when true and nothing when
false. -/
def serializeBool (mode : BooleanType) (name : String) (value : Bool) :
    List String :=
  match mode with
  | .OnOff => [name, if value then "on" else "off"]
  | .Presence => if value then [name] else []

/-- One item of a line stream: a decoded line or an I/O error, i.e.
`tokio::io::Result<String>` (src/lib.rs line 278). -/
abbrev StreamItem := Except Nat String

/-- The `ConsoleStream` of src/lib.rs lines 276-296: it owns the child
process and a pinned inner stream of line items. The inner stream is
modelled by the arrival-ordered sequence of items it has yet to yield. -/
structure ConsoleStream where
  inner : List StreamItem

/-- An interleaving of two pipes' item sequences as
`tokio::stream::StreamExt::merge` produces it, driven by an arrival
schedule: `true` takes the next stdout item, `false` the next stderr item;
once one side is exhausted the other is drained (first-ready-first-yielded). -/
def mergeBy : List Bool → List StreamItem → List StreamItem → List StreamItem
  | _, [], ys => ys
  | _, x :: xs, [] => x :: xs
  | [], x :: xs, ys => x :: mergeBy [] xs ys
  | true :: sched, x :: xs, ys => x :: mergeBy sched xs ys
  | false :: sched, xs, y :: ys => y :: mergeBy sched xs ys

/-- Shallow embedding of `ConsoleStream::new` (src/lib.rs lines 282-296):
the inner stream reads lines from the child's stdout, merged with the lines
from its stderr when combined output is requested (the merge order depends
on pipe arrival, abstracted by `sched`); otherwise stdout alone. -/
def ConsoleStream.new (stdout stderr : List StreamItem)
    (combined_output : Bool) (sched : List Bool) : ConsoleStream :=
  { inner := if combined_output then mergeBy sched stdout stderr else stdout }

/-- Shallow embedding of `impl Stream for ConsoleStream::poll_next`
(src/lib.rs lines 298-308): when the inner stream is ready with an item
(line or error) that item is yielded together with the rest of the stream;
when the inner stream is exhausted the sequence ends (`none`). -/
def ConsoleStream.poll_next :
    ConsoleStream → Option (StreamItem × ConsoleStream)
  | { inner := [] } => none
  | { inner := i :: rest } => some (i, { inner := rest })

end IpCmd

example : IpCmd.validUtf8 [111, 111, 112, 115] = true := by decide

example : IpCmd.validUtf8 [0xFF] = false := by decide

example :
    IpCmd.commandResult false (.exited 0 [0xFF] []) = .panicked := by decide

example :
    IpCmd.commandResult true (.exited 0 [111] [107]) = .ok [111, 107] := by
  decide

example :
    IpCmd.IpCommand.new [("/bin", ["ip"])] =
      .ok { command := "/bin/ip", timeout := 5000, namespace_ := none } := by
  rfl

example :
    IpCmd.IpCommand.command_with_streaming_output_spawn
        { command := "/bin/ip", timeout := 5000, namespace_ := none }
        [("/bin", ["ip"])] [] =
      .error .CommandNotFoundError := by
  rfl

example :
    IpCmd.IpCommand.concat_args
        { command := "/bin/ip", timeout := 5000, namespace_ := some "blue" }
        ["link", "show"] =
      ["-json", "-netns", "blue", "link", "show"] := by
  decide

namespace IpCmd

/-- Helper for C9: the merged stream of two pipes is exhausted exactly when
both pipes are exhausted, whatever the arrival schedule. -/
theorem mergeBy_eq_nil (sched : List Bool) (xs ys : List StreamItem) :
    mergeBy sched xs ys = [] ↔ xs = [] ∧ ys = [] := by
  match sched, xs, ys with
  | sched, [], ys => simp [mergeBy]
  | sched, x :: xs, [] => simp [mergeBy]
  | [], x :: xs, y :: ys => simp [mergeBy]
  | true :: sched, x :: xs, y :: ys => simp [mergeBy]
  | false :: sched, x :: xs, y :: ys => simp [mergeBy]

/-- C1 (counterexample): the claim says a sentinel "must not occur" variant
fails with a SerializationError returned as a typed result; at the concrete
input `LinkDeviceOrGroup::None` the source instead hits `unimplemented!()`,
a panic, which is not the typed serialization error. -/
theorem C1_link_none_panics_not_typed_error :
    LinkDeviceOrGroup.serialize LinkDeviceOrGroup.None =
      SerializeOutcome.panicked ∧
    SerializeOutcome.panicked ≠ SerializeOutcome.serializationError := by
  refine ⟨rfl, ?_⟩
  simp

/-- C1 (amended): serializing a sentinel variant is always surfaced as a
hard failure and never merely contributes zero tokens —
`AddressAddConfigurationFlag::None` (via `serialize_none`, whose handling is
modelled from the spec) fails with the typed SerializationError, while
`LinkDeviceOrGroup::None` panics via `unimplemented!()` rather than
returning a typed SerializationError; neither yields a token list. -/
theorem C1_sentinel_variant_surfaced :
    AddressAddConfigurationFlag.serialize AddressAddConfigurationFlag.None =
      SerializeOutcome.serializationError ∧
    LinkDeviceOrGroup.serialize LinkDeviceOrGroup.None =
      SerializeOutcome.panicked ∧
    (∀ ts, AddressAddConfigurationFlag.serialize
      AddressAddConfigurationFlag.None ≠ SerializeOutcome.tokens ts) ∧
    (∀ ts, LinkDeviceOrGroup.serialize LinkDeviceOrGroup.None ≠
      SerializeOutcome.tokens ts) := by
  refine ⟨rfl, rfl, fun ts h => ?_, fun ts h => ?_⟩ <;>
    exact SerializeOutcome.noConfusion h

/-- C3: whenever the child exits with a nonzero status (before the timeout,
i.e. the race resolved to `exited`) and the captured bytes decode as UTF-8,
the call fails with CommandFailedError carrying the exact stdout and stderr
bytes verbatim, in both output-combination modes. -/
theorem C3_nonzero_exit_command_failed (code : Nat) (sout serr : Bytes)
    (combined : Bool) (hcode : code ≠ 0) (hso : validUtf8 sout = true)
    (hse : validUtf8 serr = true) :
    commandResult combined (.exited code sout serr) =
      .err (.CommandFailedError sout serr) := by
  simp [commandResult, from_utf8, hso, hse, hcode]

/-- C3 (witness): a command that exits 1 after writing "oops" (bytes 111,
111, 112, 115) to standard error, with stdout-only mode requested, yields
CommandFailedError whose stderr field is exactly those bytes. -/
theorem C3_nonzero_exit_command_failed_witness :
    commandResult false (.exited 1 [] [111, 111, 112, 115]) =
      .err (.CommandFailedError [] [111, 111, 112, 115]) :=
  C3_nonzero_exit_command_failed 1 [] [111, 111, 112, 115] false
    (by decide) (by decide) (by decide)

/-- C4 (counterexample): the claim says invalid UTF-8 in the captured
output is a hard error returned as a typed result to the caller; at the
concrete input where stdout is the invalid byte 0xFF, the source's
`String::from_utf8(..).unwrap()` panics instead — the result is neither a
typed error value nor a success value. -/
theorem C4_invalid_utf8_panic_not_typed_result :
    commandResult false (.exited 0 [0xFF] []) = CommandOutcome.panicked ∧
    (∀ e, CommandOutcome.panicked ≠ CommandOutcome.err e) ∧
    (∀ t, CommandOutcome.panicked ≠ CommandOutcome.ok t) := by
  refine ⟨by decide, fun e h => ?_, fun t h => ?_⟩ <;>
    exact CommandOutcome.noConfusion h

/-- C4 (amended): captured subprocess output is decoded as UTF-8, and
invalid bytes in either captured pipe are a hard failure — a panic from
`unwrap()` — never replaced with placeholder characters and never swallowed
into a success value; the failure is a panic rather than a typed result. -/
theorem C4_invalid_utf8_hard_failure (code : Nat) (sout serr : Bytes)
    (combined : Bool)
    (h : validUtf8 sout = false ∨ validUtf8 serr = false) :
    commandResult combined (.exited code sout serr) =
      CommandOutcome.panicked := by
  rcases h with h | h
  · simp [commandResult, from_utf8, h]
  · by_cases hs : validUtf8 sout <;>
      simp [commandResult, from_utf8, h, hs]

/-- C4 (witness): with stdout the invalid byte 0xFF and stderr a valid
byte, the call panics. -/
theorem C4_invalid_utf8_hard_failure_witness :
    commandResult false (.exited 0 [0xFF] [111]) =
      CommandOutcome.panicked :=
  C4_invalid_utf8_hard_failure 0 [0xFF] [111] false (Or.inl (by decide))

/-- C5: when the child exits with status zero (before the timeout) and the
captured bytes decode as UTF-8, combined mode returns the captured stdout
text followed by the captured stderr text, and plain mode returns the
captured stdout text. -/
theorem C5_zero_exit_captured_output (sout serr : Bytes)
    (hso : validUtf8 sout = true) (hse : validUtf8 serr = true) :
    commandResult true (.exited 0 sout serr) = .ok (sout ++ serr) ∧
    commandResult false (.exited 0 sout serr) = .ok sout := by
  simp [commandResult, from_utf8, hso, hse]

/-- C5 (witness): a process writing "ok" (bytes 111, 107) to stdout and "!"
(byte 33) to stderr, exiting 0: combined mode returns the concatenation,
plain mode returns stdout alone. -/
theorem C5_zero_exit_captured_output_witness :
    commandResult true (.exited 0 [111, 107] [33]) = .ok [111, 107, 33] ∧
    commandResult false (.exited 0 [111, 107] [33]) = .ok [111, 107] :=
  C5_zero_exit_captured_output [111, 107] [33] (by decide) (by decide)

/-- C6 (counterexample): the claim says every external binary the client
invokes is resolved at client-construction time, with a missing binary
surfaced then, not at invocation time; on a search path holding ip but not
stdbuf, construction succeeds, yet the streaming-output invocation — which
resolves stdbuf itself — fails with CommandNotFoundError at invocation
time. -/
theorem C6_stdbuf_resolved_at_invocation_time :
    IpCommand.new [("/bin", ["ip"])] =
      .ok { command := "/bin/ip", timeout := 5000, namespace_ := none } ∧
    IpCommand.command_with_streaming_output_spawn
        { command := "/bin/ip", timeout := 5000, namespace_ := none }
        [("/bin", ["ip"])] [] =
      .error .CommandNotFoundError := by
  exact ⟨rfl, rfl⟩

/-- C6 (amended): the ip binary path is resolved once at
client-construction time by searching the executable search path, first
match winning, and a missing ip binary is surfaced as CommandNotFoundError
at construction time; the stdbuf binary used by streaming invocations is
resolved again at each streaming invocation, and its absence is surfaced as
CommandNotFoundError at invocation time. -/
theorem C6_binary_resolution (sp : SearchPath) :
    (path "ip" sp = none →
      IpCommand.new sp = .error .CommandNotFoundError) ∧
    (∀ p, path "ip" sp = some p →
      IpCommand.new sp =
        .ok { command := p, timeout := 5000, namespace_ := none }) ∧
    (∀ (self : IpCommand) (args : List String),
      path "stdbuf" sp = none →
        self.command_with_streaming_output_spawn sp args =
          .error .CommandNotFoundError) ∧
    (∀ (name d : String) (fs : List String) (rest : SearchPath), name ∈ fs →
      path name ((d, fs) :: rest) = some (d ++ "/" ++ name)) ∧
    (∀ (name d : String) (fs : List String) (rest : SearchPath), name ∉ fs →
      path name ((d, fs) :: rest) = path name rest) := by
  refine ⟨fun h => ?_, fun p h => ?_, fun self args h => ?_,
    fun name d fs rest h => ?_, fun name d fs rest h => ?_⟩
  · simp [IpCommand.new, h]
  · simp [IpCommand.new, h]
  · simp [IpCommand.command_with_streaming_output_spawn, h]
  · simp [path, h]
  · simp [path, h]

/-- C7: the source arm for `ExpressDataPathConfiguration::Object` with a
section name and verbose off declares 3 elements when it begins the token
sequence but then serializes 5 — the variant keyword, "object", the path,
"section" and the section name — contradicting the statically-known token
count the spec states for every combination of fields. -/
theorem C7_object_section_count_mismatch :
    ExpressDataPathConfiguration.declaredElements
        (.Object .Default "prog.o" (some "prog_main") false) = 3 ∧
    (ExpressDataPathConfiguration.serializedTokens
        (.Object .Default "prog.o" (some "prog_main") false)).length = 5 ∧
    ExpressDataPathConfiguration.serializedTokens
        (.Object .Default "prog.o" (some "prog_main") false) =
      ["xdp", "object", "prog.o", "section", "prog_main"] := by
  refine ⟨rfl, rfl, rfl⟩

/-- C8: boolean rendering (modelled from the spec, the serializer crate not
being among the staged sources) — for a true value, state-word mode emits
exactly two tokens, the flag name followed by the literal "on"; presence
mode emits exactly one token, the flag name, with no boolean literal (and
nothing at all for false); the two modes are distinct and exhaust the mode
type. -/
theorem C8_boolean_rendering_modes (name : String) :
    serializeBool .OnOff name true = [name, "on"] ∧
    (serializeBool .OnOff name true).length = 2 ∧
    serializeBool .Presence name true = [name] ∧
    (serializeBool .Presence name true).length = 1 ∧
    serializeBool .Presence name false = [] ∧
    BooleanType.OnOff ≠ BooleanType.Presence ∧
    (∀ mode : BooleanType, mode = .OnOff ∨ mode = .Presence) := by
  refine ⟨rfl, rfl, rfl, rfl, rfl, by simp, fun mode => ?_⟩
  cases mode <;> simp

/-- C9: polling a ConsoleStream whose inner sequence is ready with an I/O
error yields that error as an item of the sequence together with the rest
of the stream (never a silent end), and the sequence yields no more items
exactly when every pipe feeding it — stdout and, in combined mode, stderr —
has reached end-of-file. -/
theorem C9_stream_error_items_and_eof (stdout stderr : List StreamItem)
    (combined : Bool) (sched : List Bool) :
    (∀ (s : ConsoleStream) (e : Nat) (rest : List StreamItem),
      s.inner = .error e :: rest →
        s.poll_next = some (.error e, { inner := rest })) ∧
    ((ConsoleStream.new stdout stderr combined sched).poll_next = none ↔
      (if combined then stdout = [] ∧ stderr = [] else stdout = [])) := by
  constructor
  · rintro ⟨inner⟩ e rest h
    subst h
    rfl
  · have hpoll : ∀ (l : List StreamItem),
        ConsoleStream.poll_next { inner := l } = none ↔ l = [] := by
      intro l
      cases l <;> simp [ConsoleStream.poll_next]
    cases combined
    · simp [ConsoleStream.new, hpoll]
    · simp [ConsoleStream.new, hpoll, mergeBy_eq_nil]

/-- C10: the argument vector handed to the spawned subprocess is the token
"-json", then the pair "-netns" followed by the namespace name when the
client has a namespace configured (nothing otherwise), then the caller's
argument tokens in order and unchanged; the program is the resolved ip
binary and stdin is closed. -/
theorem C10_spawn_argument_vector (self : IpCommand) (args : List String) :
    (self.namespace_ = none →
      (self.commandSpawn args).args = "-json" :: args) ∧
    (∀ ns, self.namespace_ = some ns →
      (self.commandSpawn args).args = "-json" :: "-netns" :: ns :: args) ∧
    (∀ ns, ((self.with_namespace ns).commandSpawn args).args =
      "-json" :: "-netns" :: ns :: args) ∧
    (self.commandSpawn args).program = self.command ∧
    (self.commandSpawn args).stdinNull = true := by
  refine ⟨fun h => ?_, fun ns h => ?_, fun ns => ?_, rfl, rfl⟩
  · simp [IpCommand.commandSpawn, IpCommand.concat_args, h]
  · simp [IpCommand.commandSpawn, IpCommand.concat_args, h]
  · simp [IpCommand.commandSpawn, IpCommand.concat_args,
      IpCommand.with_namespace]

end IpCmd
